import Mathlib

/-!
Verification of the xge basis-trade engine's trading core against its
natural-language specification.

Shallow embedding conventions:
* Python floats are modelled as rationals (`ℚ`); Python's `round(x, n)`
  (half-to-even on the scaled value) is modelled by `pyRound`.
* Python `None` becomes `Option.none`; values read from the external
  cache/exchange are passed in explicitly as function arguments.
* `float("inf")` (the breakeven-periods value when funding is not
  positive) is modelled as `Option.none` in the `breakeven_periods`
  and `breakeven_hours` fields.
* The `Position` dataclass of `models_trading.py` is embedded with
  exactly its declared fields.  The strategy and the test-suite also
  use attributes `tier` and `exit_reason` which that dataclass does
  not declare; where code constructs a `Position` with a `tier=`
  keyword or reads `p.tier`, the Python exception this raises
  (`TypeError` / `AttributeError`) is modelled explicitly.
-/

/-- Python's banker's rounding of a rational to the nearest integer
(round half to even), as used by `round(x)` on exact values. -/
def roundHalfEven (x : ℚ) : ℤ :=
  let f : ℤ := ⌊x⌋
  let frac : ℚ := x - f
  if frac < 1/2 then f
  else if frac > 1/2 then f + 1
  else if f % 2 = 0 then f else f + 1

/-- Python's `round(x, n)` modelled over the rationals. -/
def pyRound (x : ℚ) (n : ℕ) : ℚ :=
  (roundHalfEven (x * 10 ^ n) : ℚ) / 10 ^ n

/-! ## models.py -/

/-- `models.OrderBookEntry`. -/
structure OrderBookEntry where
  exchange : String
  symbol : String
  bid : ℚ
  ask : ℚ
  bid_volume : ℚ
  ask_volume : ℚ
  timestamp : ℚ
deriving DecidableEq, Repr

/-- `OrderBookEntry.mid_price`: `(bid + ask) / 2`. -/
def OrderBookEntry.mid_price (b : OrderBookEntry) : ℚ := (b.bid + b.ask) / 2

/-! ## models_funding.py -/

/-- `models_funding.FundingRateEntry`. -/
structure FundingRateEntry where
  exchange : String
  symbol : String
  spot_symbol : String
  funding_rate : ℚ
  funding_timestamp : ℚ
  next_funding_timestamp : Option ℚ := none
  next_funding_rate : Option ℚ := none
  timestamp : ℚ := 0
deriving DecidableEq, Repr

/-- `models_funding.spot_to_perp`. -/
def spot_to_perp (symbol : String) : String :=
  if (symbol.splitOn ":").length > 1 then symbol
  else
    let parts := symbol.splitOn "/"
    let quote := if parts.length > 1 then parts[1]! else "USDT"
    symbol ++ ":" ++ quote

/-- `models_funding.SpotFundingArb`. -/
structure SpotFundingArb where
  symbol : String
  exchange : String
  funding_rate : ℚ
  annualized_rate : ℚ
  direction : String
  timestamp : ℚ
deriving DecidableEq, Repr

/-- `SpotFundingArb.calculate`: returns `none` when the absolute
annualized rate is below the threshold, otherwise the arb record with
the direction derived from the funding sign. -/
def SpotFundingArb.calculate (entry : FundingRateEntry)
    (min_annualized_pct : ℚ) (now : ℚ) : Option SpotFundingArb :=
  let annualized := entry.funding_rate * 3 * 365 * 100
  if |annualized| < min_annualized_pct then none
  else some
    { symbol := entry.spot_symbol
      exchange := entry.exchange
      funding_rate := entry.funding_rate
      annualized_rate := annualized
      direction :=
        if entry.funding_rate > 0 then "long_spot_short_perp"
        else "short_spot_long_perp"
      timestamp := now }

/-! ## models_trading.py -/

/-- `models_trading.LegFill`. -/
structure LegFill where
  side : String
  market_type : String
  symbol : String
  price : ℚ
  quantity : ℚ
  fee : ℚ
  timestamp : ℚ := 0
deriving DecidableEq, Repr

/-- `models_trading.Position` with exactly the fields declared by the
dataclass (note: no `tier` and no `exit_reason` field is declared). -/
structure Position where
  exchange : String
  symbol : String
  perp_symbol : String
  direction : String
  status : String
  size_usdt : ℚ
  spot_entry_price : ℚ := 0
  spot_quantity : ℚ := 0
  spot_exit_price : ℚ := 0
  perp_entry_price : ℚ := 0
  perp_quantity : ℚ := 0
  perp_exit_price : ℚ := 0
  entry_funding_rate : ℚ := 0
  entry_annualized_rate : ℚ := 0
  funding_collected : ℚ := 0
  last_funding_update : ℚ := 0
  opened_at : ℚ := 0
  closed_at : ℚ := 0
  realized_pnl : ℚ := 0
  paper : Bool := true
deriving DecidableEq, Repr

/-- The keyword parameters accepted by `Position.__init__` (the
dataclass field names, in declaration order). -/
def positionInitParams : List String :=
  ["exchange", "symbol", "perp_symbol", "direction", "status",
   "size_usdt", "spot_entry_price", "spot_quantity", "spot_exit_price",
   "perp_entry_price", "perp_quantity", "perp_exit_price",
   "entry_funding_rate", "entry_annualized_rate", "funding_collected",
   "last_funding_update", "opened_at", "closed_at", "realized_pnl",
   "paper"]

/-- `Position.redis_key`. -/
def Position.redis_key (p : Position) : String :=
  "position:" ++ p.exchange ++ ":" ++ p.symbol

/-- `Position.calculate_pnl`: zero unless status is "closed", otherwise
spot leg + short perp leg + funding collected. -/
def Position.calculate_pnl (p : Position) : ℚ :=
  if p.status ≠ "closed" then 0
  else
    (p.spot_exit_price - p.spot_entry_price) * p.spot_quantity
      + (p.perp_entry_price - p.perp_exit_price) * p.perp_quantity
      + p.funding_collected

/-- `Position.estimate_unrealized_pnl` at given current prices. -/
def Position.estimate_unrealized_pnl (p : Position)
    (spot_price perp_price : ℚ) : ℚ :=
  (spot_price - p.spot_entry_price) * p.spot_quantity
    + (p.perp_entry_price - perp_price) * p.perp_quantity
    + p.funding_collected

/-! ## trading/tier_config.py -/

/-- `tier_config.CAPITAL_CONFIG`. -/
structure CapitalConfig where
  total : ℚ
  operative : ℚ
  reserve_rebalance : ℚ
  stable_buffer : ℚ
deriving DecidableEq, Repr

def CAPITAL_CONFIG : CapitalConfig :=
  { total := 2000, operative := 1800
    reserve_rebalance := 200, stable_buffer := 180 }

/-- A tier record (`tier_config.TIER_1` / `TIER_2` dict shape). -/
structure Tier where
  name : String
  symbols : List String
  capital_total : ℚ
  size_per_pair : ℚ
  max_pairs_open : ℕ
  min_funding_rate : ℚ
  stop_loss_pct : ℚ
  delta_alert_pct : ℚ
deriving DecidableEq, Repr

def TIER_1 : Tier :=
  { name := "tier_1"
    symbols := ["BTC/USDT", "ETH/USDT", "SOL/USDT", "XRP/USDT"]
    capital_total := 1260
    size_per_pair := 315
    max_pairs_open := 4
    min_funding_rate := 0.00008
    stop_loss_pct := 0.005
    delta_alert_pct := 0.02 }

def TIER_2 : Tier :=
  { name := "tier_2"
    symbols := ["WLD/USDT", "NEAR/USDT", "AVAX/USDT"]
    capital_total := 360
    size_per_pair := 180
    max_pairs_open := 2
    min_funding_rate := 0.00015
    stop_loss_pct := 0.005
    delta_alert_pct := 0.02 }

def TIERS : List Tier := [TIER_1, TIER_2]

def BLACKLIST : List String :=
  ["ATOM/USDT", "DOT/USDT", "OP/USDT", "AAVE/USDT"]

/-- A fee schedule record (`tier_config.FEE_SCHEDULE` entry shape). -/
structure FeeSchedule where
  spot : ℚ
  perp_maker : ℚ
  perp_taker : ℚ
deriving DecidableEq, Repr

/-- `tier_config.get_fees`: per-exchange schedule with safe defaults
for unknown exchanges. -/
def get_fees (exchange : String) : FeeSchedule :=
  if exchange = "bitget" then
    { spot := 0.001, perp_maker := 0.0002, perp_taker := 0.0006 }
  else if exchange = "okx" then
    { spot := 0.001, perp_maker := 0.0002, perp_taker := 0.0005 }
  else if exchange = "mexc" then
    { spot := 0.0002, perp_maker := 0.0, perp_taker := 0.0006 }
  else
    { spot := 0.001, perp_maker := 0.0005, perp_taker := 0.001 }

/-- `tier_config.get_tier_for_symbol`: blacklist wins, then the first
tier whose symbol list contains the symbol. -/
def get_tier_for_symbol (symbol : String) : Option Tier :=
  if symbol ∈ BLACKLIST then none
  else TIERS.find? (fun tier => symbol ∈ tier.symbols)

/-- `tier_config.get_all_tier_symbols`. -/
def get_all_tier_symbols : List String :=
  TIERS.flatMap (fun tier => tier.symbols)

/-! ## trading/breakeven.py -/

def PERIODS_PER_DAY : ℕ := 3

def MAX_BREAKEVEN_PERIODS : ℕ := 3 * PERIODS_PER_DAY

/-- The record returned by `calculate_breakeven`.  `breakeven_periods`
and `breakeven_hours` are `none` exactly when the Python code yields
`float("inf")` (funding per period not positive). -/
structure BreakevenResult where
  entry_cost_usdt : ℚ
  exit_cost_usdt : ℚ
  total_cost_usdt : ℚ
  funding_per_period : ℚ
  breakeven_periods : Option ℚ
  breakeven_hours : Option ℚ
  viable : Bool
deriving DecidableEq, Repr

/-- The spot fee used by `calculate_breakeven` (override or schedule). -/
def breakevenSpotFee (exchange : String) (spot_fee : Option ℚ) : ℚ :=
  spot_fee.getD (get_fees exchange).spot

/-- The perp entry fee used by `calculate_breakeven` (override or
taker from schedule). -/
def breakevenPerpEntryFee (exchange : String) (perp_fee : Option ℚ) : ℚ :=
  perp_fee.getD (get_fees exchange).perp_taker

/-- The perp exit fee used by `calculate_breakeven` (override or maker
from schedule). -/
def breakevenPerpExitFee (exchange : String) (perp_fee : Option ℚ) : ℚ :=
  perp_fee.getD (get_fees exchange).perp_maker

/-- Unrounded entry cost: `size * (s_fee + p_fee_entry)`. -/
def entryCostRaw (size_usdt : ℚ) (exchange : String)
    (spot_fee perp_fee : Option ℚ) : ℚ :=
  size_usdt * (breakevenSpotFee exchange spot_fee
    + breakevenPerpEntryFee exchange perp_fee)

/-- Unrounded exit cost: `size * (s_fee + p_fee_exit)`. -/
def exitCostRaw (size_usdt : ℚ) (exchange : String)
    (spot_fee perp_fee : Option ℚ) : ℚ :=
  size_usdt * (breakevenSpotFee exchange spot_fee
    + breakevenPerpExitFee exchange perp_fee)

/-- Unrounded total cost. -/
def totalCostRaw (size_usdt : ℚ) (exchange : String)
    (spot_fee perp_fee : Option ℚ) : ℚ :=
  entryCostRaw size_usdt exchange spot_fee perp_fee
    + exitCostRaw size_usdt exchange spot_fee perp_fee

/-- Unrounded funding per period: `size * funding_rate`. -/
def fundingPerPeriodRaw (size_usdt funding_rate : ℚ) : ℚ :=
  size_usdt * funding_rate

/-- Unrounded breakeven periods; `none` models `float("inf")`. -/
def breakevenPeriodsRaw (size_usdt funding_rate : ℚ) (exchange : String)
    (spot_fee perp_fee : Option ℚ) : Option ℚ :=
  if fundingPerPeriodRaw size_usdt funding_rate > 0 then
    some (totalCostRaw size_usdt exchange spot_fee perp_fee
      / fundingPerPeriodRaw size_usdt funding_rate)
  else none

/-- `breakeven.calculate_breakeven`.  The two entry-price arguments are
accepted (as in the source) but do not enter any computation. -/
def calculate_breakeven (size_usdt spot_entry_price perp_entry_price
    funding_rate : ℚ) (exchange : String)
    (spot_fee : Option ℚ := none) (perp_fee : Option ℚ := none) :
    BreakevenResult :=
  let entry_cost := entryCostRaw size_usdt exchange spot_fee perp_fee
  let exit_cost := exitCostRaw size_usdt exchange spot_fee perp_fee
  let total_cost := entry_cost + exit_cost
  let funding_per_period := fundingPerPeriodRaw size_usdt funding_rate
  let breakeven_periods :=
    breakevenPeriodsRaw size_usdt funding_rate exchange spot_fee perp_fee
  let breakeven_hours := breakeven_periods.map (fun p => p * 8)
  { entry_cost_usdt := pyRound entry_cost 6
    exit_cost_usdt := pyRound exit_cost 6
    total_cost_usdt := pyRound total_cost 6
    funding_per_period := pyRound funding_per_period 6
    breakeven_periods := breakeven_periods.map (fun p => pyRound p 2)
    breakeven_hours := breakeven_hours.map (fun h => pyRound h 2)
    viable :=
      match breakeven_periods with
      | some p => decide (p < (MAX_BREAKEVEN_PERIODS : ℚ))
      | none => false }

/-! ## trading/position_manager.py -/

/-- The store effect of `PositionManager.save_position`: a closed
position's key is deleted and the position is appended to the
`trade_history` list; any other status is written back under its key
with a 7-day TTL (in seconds). -/
inductive SaveEffect where
  | deleteAndAppend (key : String) (pos : Position)
  | writeWithTTL (key : String) (pos : Position) (ttl_seconds : ℕ)
deriving DecidableEq, Repr

/-- `PositionManager.save_position`. -/
def save_position (position : Position) : SaveEffect :=
  if position.status = "closed" then
    .deleteAndAppend position.redis_key position
  else
    .writeWithTTL position.redis_key position (7 * 86400)

/-! ## trading/strategy.py -/

/-- `strategy.MIN_HOLD_SECONDS` (8 hours). -/
def MIN_HOLD_SECONDS : ℚ := 8 * 3600

/-- `CAPITAL_CONFIG["total"] + sum(t.realized_pnl for t in history)`,
the estimated balance used by the capital check and reserve guard. -/
def estimatedBalance (history : List Position) : ℚ :=
  CAPITAL_CONFIG.total + (history.map (fun t => t.realized_pnl)).sum

/-- The record built by `BasisTradeStrategy._check_capital_available`. -/
structure CapitalCheck where
  can_open : Bool
  capital_deployed : ℚ
  capital_free : ℚ
  reserve_intact : Bool
  pairs_open_in_tier : ℕ
  reason : String
deriving DecidableEq, Repr

/-- `BasisTradeStrategy._check_capital_available`.

The source filters the open positions by `p.tier == tier["name"]`, but
`Position` declares no `tier` field, so as soon as at least one open
position exists this comprehension raises `AttributeError`; that
outcome is the `.error` branch.  With no open positions the
comprehension is vacuous and the checks proceed. -/
def checkCapitalAvailable (tier : Tier)
    (all_positions history : List Position) :
    Except String CapitalCheck :=
  let open_positions := all_positions.filter (fun p => p.status = "open")
  if ¬ open_positions.isEmpty then
    .error "AttributeError: Position object has no attribute tier"
  else
    let capital_deployed := (open_positions.map (fun p => p.size_usdt)).sum
    let capital_free := CAPITAL_CONFIG.operative - capital_deployed
    let pairs_open : ℕ := 0
    let balance := estimatedBalance history
    let reserve_intact : Bool := decide (balance ≥ CAPITAL_CONFIG.operative)
    let base : CapitalCheck :=
      { can_open := true
        capital_deployed := capital_deployed
        capital_free := capital_free
        reserve_intact := reserve_intact
        pairs_open_in_tier := pairs_open
        reason := "" }
    if capital_free < tier.size_per_pair then
      .ok { base with can_open := false, reason := "Insufficient capital" }
    else if pairs_open ≥ tier.max_pairs_open then
      .ok { base with can_open := false, reason := "Max pairs for tier" }
    else if ¬ reserve_intact then
      .ok { base with can_open := false, reason := "Reserve compromised" }
    else
      .ok base

/-- Result of `pair_selector.validate_pair` as seen by the entry gate:
either there is no connected exchange object (the validation block is
skipped), or the validation returned approved / not approved, or it
raised (caught, entry abandoned). -/
inductive PairCheckResult where
  | noExchangeObject
  | approved
  | rejected
  | error
deriving DecidableEq, Repr

/-- The external inputs consumed by one run of
`BasisTradeStrategy._evaluate_entry` for one (exchange, symbol). -/
structure EntryInput where
  exchange_id : String
  symbol : String
  funding_raw : Option FundingRateEntry
  spot_raw : Option OrderBookEntry
  now : ℚ
  funding_poll_interval : ℚ
  min_entry_annualized_pct : ℚ
  all_positions : List Position
  history : List Position
  pm_can_open : Bool
  pair_check : PairCheckResult
  fills : Option (LegFill × LegFill)
  paper : Bool
deriving Repr

/-- Outcome of one `_evaluate_entry` run.  `skip` names the gate stage
that returned early; `exception` models an uncaught Python exception
(it aborts the whole tick); `typeError` models the `TypeError` raised
by calling `Position(**kwargs)` with keyword arguments the dataclass
does not declare (payload: the unexpected keyword names). -/
inductive EntryOutcome where
  | skip (stage : String)
  | exception (msg : String)
  | typeError (unexpected_kwargs : List String)
  | saved (pos : Position)
deriving DecidableEq, Repr

/-- The keyword arguments `_evaluate_entry` passes to `Position(...)`
when constructing the new position (strategy.py lines 238-253). -/
def strategyOpenKwargs : List String :=
  ["exchange", "symbol", "perp_symbol", "direction", "status",
   "size_usdt", "spot_entry_price", "spot_quantity",
   "perp_entry_price", "perp_quantity", "entry_funding_rate",
   "entry_annualized_rate", "paper", "tier"]

/-- `BasisTradeStrategy._evaluate_entry`: the full entry gate for one
(exchange, symbol), ending in the attempted `Position` construction.
Since `strategyOpenKwargs` contains `"tier"` and `positionInitParams`
does not, the construction step always takes the `typeError` branch;
the `saved` branch records what would be stored were the keyword
accepted. -/
def evaluateEntry (inp : EntryInput) : EntryOutcome :=
  if inp.symbol ∈ BLACKLIST then .skip "blacklist"
  else
    match get_tier_for_symbol inp.symbol with
    | none => .skip "no_tier"
    | some tier =>
      match inp.funding_raw with
      | none => .skip "no_funding_data"
      | some entry =>
        if inp.now - entry.timestamp > inp.funding_poll_interval * 2 then
          .skip "stale_funding"
        else if entry.funding_rate ≤ 0 then .skip "nonpositive_funding"
        else if entry.funding_rate < tier.min_funding_rate then
          .skip "below_tier_min_funding"
        else
          match SpotFundingArb.calculate entry
              inp.min_entry_annualized_pct inp.now with
          | none => .skip "arb_below_min_annualized"
          | some arb =>
            if arb.direction ≠ "long_spot_short_perp" then
              .skip "wrong_direction"
            else
              match checkCapitalAvailable tier inp.all_positions
                  inp.history with
              | .error msg => .exception msg
              | .ok capital_check =>
                if ¬ capital_check.can_open then .skip "capital"
                else if ¬ inp.pm_can_open then .skip "position_manager"
                else
                  match inp.spot_raw with
                  | none => .skip "no_order_book"
                  | some spot_book =>
                    let be := calculate_breakeven tier.size_per_pair
                      spot_book.ask spot_book.bid entry.funding_rate
                      inp.exchange_id none none
                    if ¬ be.viable then .skip "breakeven_not_viable"
                    else
                      match inp.pair_check with
                      | .rejected => .skip "pair_validation_failed"
                      | .error => .skip "pair_validation_error"
                      | _ =>
                        match inp.fills with
                        | none => .skip "execute_open_failed"
                        | some (spot_fill, perp_fill) =>
                          let unexpected := strategyOpenKwargs.filter
                            (fun kw => kw ∉ positionInitParams)
                          if unexpected.isEmpty then
                            .saved
                              { exchange := inp.exchange_id
                                symbol := inp.symbol
                                perp_symbol := spot_to_perp inp.symbol
                                direction := "long_spot_short_perp"
                                status := "open"
                                size_usdt := tier.size_per_pair
                                spot_entry_price := spot_fill.price
                                spot_quantity := spot_fill.quantity
                                perp_entry_price := perp_fill.price
                                perp_quantity := perp_fill.quantity
                                entry_funding_rate := entry.funding_rate
                                entry_annualized_rate := arb.annualized_rate
                                paper := inp.paper
                                opened_at := inp.now
                                last_funding_update := inp.now }
                          else .typeError unexpected

/-- The external inputs consumed by one run of
`BasisTradeStrategy._evaluate_exit` on one open position. -/
structure ExitInput where
  pos : Position
  funding : Option FundingRateEntry
  spot_raw : Option OrderBookEntry
  now : ℚ
  funding_poll_interval : ℚ
  min_exit_annualized_pct : ℚ
  has_delta_monitor : Bool
  neg_count : ℕ
deriving Repr

/-- Result of `_evaluate_exit`: the exit reason chosen (or `none`), and
the delta monitor's negative-funding counter after this evaluation. -/
structure ExitDecision where
  decision : Option String
  neg_count : ℕ
deriving DecidableEq, Repr

/-- `DeltaMonitor.track_negative_funding` on a single counter:
increments when negative, resets to zero otherwise. -/
def track_negative_funding (count : ℕ) (is_negative : Bool) : ℕ :=
  if is_negative then count + 1 else 0

/-- The stop-loss firing condition of `_evaluate_exit` branch (c):
requires the symbol's tier and a cached order book; fires when the
unrealized PnL at mid price is strictly below the negated stop-loss
limit and collected funding does not cover the loss. -/
def stopLossFires (inp : ExitInput) : Bool :=
  match get_tier_for_symbol inp.pos.symbol, inp.spot_raw with
  | some tier, some spot_book =>
    let unrealized := inp.pos.estimate_unrealized_pnl
      spot_book.mid_price spot_book.mid_price
    decide (unrealized < -(tier.size_per_pair * tier.stop_loss_pct)
      ∧ inp.pos.funding_collected < |unrealized|)
  | _, _ => false

/-- Branch (a) of `_evaluate_exit` (funding drop below 70% of the
entry rate, subject to the minimum hold): the value of
`should_exit`/`exit_reason` after the first block, as an
`Option String`. -/
def exitStateA (inp : ExitInput) (entry : FundingRateEntry) :
    Option String :=
  if entry.funding_rate > 0 ∧ inp.pos.entry_funding_rate > 0
      ∧ entry.funding_rate < inp.pos.entry_funding_rate * (70/100) then
    if inp.now - inp.pos.opened_at ≥ MIN_HOLD_SECONDS then
      some "funding_drop"
    else none
  else none

/-- The delta monitor's negative-funding counter after the branch (b)
block of `_evaluate_exit` (incremented when the rate is negative,
reset when non-negative, untouched without a monitor). -/
def exitNewCount (inp : ExitInput) (entry : FundingRateEntry) : ℕ :=
  if entry.funding_rate < 0 ∧ inp.has_delta_monitor then
    track_negative_funding inp.neg_count true
  else if entry.funding_rate ≥ 0 ∧ inp.has_delta_monitor then
    track_negative_funding inp.neg_count false
  else inp.neg_count

/-- State after branch (b): two consecutive negative observations set
`funding_negative`, otherwise the state of branch (a) survives. -/
def exitStateB (inp : ExitInput) (entry : FundingRateEntry) :
    Option String :=
  if entry.funding_rate < 0 ∧ inp.has_delta_monitor
      ∧ exitNewCount inp entry ≥ 2 then
    some "funding_negative"
  else exitStateA inp entry

/-- State after branch (c): the stop loss is evaluated only when no
earlier trigger fired. -/
def exitStateC (inp : ExitInput) (entry : FundingRateEntry) :
    Option String :=
  if (exitStateB inp entry).isNone then
    if stopLossFires inp then some "stop_loss" else none
  else exitStateB inp entry

/-- State after branch (d), the original exit rules: a single negative
funding observation past the minimum hold, or the annualized rate
below `min_exit_annualized_pct` past the minimum hold. -/
def exitStateD (inp : ExitInput) (entry : FundingRateEntry) :
    Option String :=
  if (exitStateC inp entry).isNone then
    if entry.funding_rate < 0 then
      if inp.now - inp.pos.opened_at ≥ MIN_HOLD_SECONDS then
        some "funding_negative"
      else none
    else if entry.funding_rate * 3 * 365 * 100
        < inp.min_exit_annualized_pct then
      if inp.now - inp.pos.opened_at ≥ MIN_HOLD_SECONDS then
        some "funding_drop"
      else none
    else none
  else exitStateC inp entry

/-- The minimum-hold filter: a pending exit whose reason is not one of
the emergency reasons is suppressed before `MIN_HOLD_SECONDS`. -/
def exitFinal (inp : ExitInput) (entry : FundingRateEntry) :
    Option String :=
  match exitStateD inp entry with
  | some reason =>
    if reason ≠ "stop_loss" ∧ reason ≠ "funding_negative"
        ∧ reason ≠ "reserve_protection"
        ∧ inp.now - inp.pos.opened_at < MIN_HOLD_SECONDS then
      none
    else some reason
  | none => none

/-- `BasisTradeStrategy._evaluate_exit`: no decision without fresh
funding data; otherwise the chain of branches (a) funding drop,
(b) two consecutive negative fundings, (c) stop loss, (d) single
negative funding / annualized below the exit threshold, then the
minimum-hold filter with its emergency exemptions. -/
def evaluateExit (inp : ExitInput) : ExitDecision :=
  match inp.funding with
  | none => { decision := none, neg_count := inp.neg_count }
  | some entry =>
    if inp.now - entry.timestamp > inp.funding_poll_interval * 2 then
      { decision := none, neg_count := inp.neg_count }
    else
      { decision := exitFinal inp entry
        neg_count := exitNewCount inp entry }

/-- `BasisTradeStrategy._execute_exit`'s mutation of the position when
both closing fills succeed: record exit prices, set status to
"closed", stamp `closed_at`, then compute `realized_pnl` with
`calculate_pnl` (the status is already "closed" at that point). -/
def executeExitUpdate (position : Position)
    (spot_fill perp_fill : LegFill) (now : ℚ) : Position :=
  let p1 := { position with
    spot_exit_price := spot_fill.price
    perp_exit_price := perp_fill.price
    status := "closed"
    closed_at := now }
  { p1 with realized_pnl := p1.calculate_pnl }

/-- Outcome of `BasisTradeStrategy._check_reserve_protection`:
`noop` when there are no positions or the estimated balance is not
below the operative threshold; `exception` models the
`AttributeError` raised by filtering on `p.tier` (no such `Position`
attribute) as soon as an open position exists; `completed` is the
fall-through when no position is open (the tier filters are vacuous
and nothing is closed). -/
inductive ReserveOutcome where
  | noop
  | exception (msg : String)
  | completed (closed : List Position)
deriving DecidableEq, Repr

/-- `BasisTradeStrategy._check_reserve_protection`. -/
def checkReserveProtection (positions history : List Position) :
    ReserveOutcome :=
  if positions.isEmpty then .noop
  else if estimatedBalance history ≥ CAPITAL_CONFIG.operative then .noop
  else if positions.any (fun p => p.status = "open") then
    .exception "AttributeError: Position object has no attribute tier"
  else .completed []

/-! ## Claim-specific concrete inputs -/

/-- Entry input for the scenario of claim C1: fresh Bitget funding at
0.0005 for BTC/USDT, order book 50000/50010, no open positions, empty
history, position manager approves, pair validation approves, both
fills succeed. -/
def c1EntryInput : EntryInput :=
  { exchange_id := "bitget"
    symbol := "BTC/USDT"
    funding_raw := some
      { exchange := "bitget", symbol := "BTC/USDT:USDT"
        spot_symbol := "BTC/USDT", funding_rate := 0.0005
        funding_timestamp := 1000000, timestamp := 1000000 }
    spot_raw := some
      { exchange := "bitget", symbol := "BTC/USDT", bid := 50000
        ask := 50010, bid_volume := 1, ask_volume := 1
        timestamp := 1000000 }
    now := 1000000
    funding_poll_interval := 300
    min_entry_annualized_pct := 10
    all_positions := []
    history := []
    pm_can_open := true
    pair_check := .approved
    fills := some
      ({ side := "buy", market_type := "spot", symbol := "BTC/USDT"
         price := 50000, quantity := 0.0063, fee := 0.315
         timestamp := 1000000 },
       { side := "sell", market_type := "perp"
         symbol := "BTC/USDT:USDT", price := 50010, quantity := 0.0063
         fee := 0.315, timestamp := 1000000 })
    paper := true }

/-- Entry input for the scenario of claim C7: same candidate as C1 but
with funding rate 0.0001, which passes the tier minimum (0.00008) and
the 10% annualized gate (10.95%) and reaches the breakeven check. -/
def c7EntryInput : EntryInput :=
  { c1EntryInput with
    funding_raw := some
      { exchange := "bitget", symbol := "BTC/USDT:USDT"
        spot_symbol := "BTC/USDT", funding_rate := 0.0001
        funding_timestamp := 1000000, timestamp := 1000000 } }

/-! ## Claims C7-C10: the breakeven calculator -/

/-- Claim C7: `calculate_breakeven` with size 315, funding 0.0001 and
Bitget fees returns entry cost 0.504, exit cost 0.378, total cost
0.882, funding per period 0.0315, breakeven at 28 periods and
`viable = false`, and the entry gate therefore skips the candidate at
the breakeven stage without opening a position. -/
theorem c7_breakeven_rejects_low_funding :
    calculate_breakeven 315 50000 50010 0.0001 "bitget" none none =
      { entry_cost_usdt := 0.504
        exit_cost_usdt := 0.378
        total_cost_usdt := 0.882
        funding_per_period := 0.0315
        breakeven_periods := some 28
        breakeven_hours := some 224
        viable := false } ∧
    evaluateEntry c7EntryInput = EntryOutcome.skip "breakeven_not_viable" := by
  constructor
  · norm_num [calculate_breakeven, entryCostRaw, exitCostRaw,
      totalCostRaw, fundingPerPeriodRaw, breakevenPeriodsRaw,
      breakevenSpotFee, breakevenPerpEntryFee, breakevenPerpExitFee,
      get_fees, pyRound, roundHalfEven, MAX_BREAKEVEN_PERIODS,
      PERIODS_PER_DAY, BreakevenResult.mk.injEq]
  · norm_num [evaluateEntry, c7EntryInput, c1EntryInput, BLACKLIST,
      get_tier_for_symbol, TIERS, TIER_1, TIER_2, List.find?,
      SpotFundingArb.calculate, checkCapitalAvailable, estimatedBalance,
      CAPITAL_CONFIG, calculate_breakeven, entryCostRaw, exitCostRaw,
      totalCostRaw, fundingPerPeriodRaw, breakevenPeriodsRaw,
      breakevenSpotFee, breakevenPerpEntryFee, breakevenPerpExitFee,
      get_fees, pyRound, roundHalfEven, MAX_BREAKEVEN_PERIODS,
      PERIODS_PER_DAY, abs_of_nonneg]
    try simp
    try norm_num
    try simp
    try norm_num

/-- Claim C10: the record returned by `calculate_breakeven` does not
depend on the `spot_entry_price` and `perp_entry_price` arguments. -/
theorem c10_breakeven_ignores_entry_prices
    (size_usdt funding_rate p1 p2 q1 q2 : ℚ) (exchange : String)
    (spot_fee perp_fee : Option ℚ) :
    calculate_breakeven size_usdt p1 p2 funding_rate exchange
        spot_fee perp_fee =
      calculate_breakeven size_usdt q1 q2 funding_rate exchange
        spot_fee perp_fee := rfl

/-- Claim C9 (counterexample): with size 315, funding rate 2/405 and
Bitget fees the returned `breakeven_periods` is 0.57 and the returned
`breakeven_hours` is 4.54, which is not 0.57 × 8 = 4.56: the two
fields are rounded independently, so the claimed exact relation
fails. -/
theorem c9_counterexample_hours_not_eight_times_periods :
    (calculate_breakeven 315 50000 50010 (2/405) "bitget" none
        none).breakeven_periods = some 0.57 ∧
    (calculate_breakeven 315 50000 50010 (2/405) "bitget" none
        none).breakeven_hours = some 4.54 ∧
    (calculate_breakeven 315 50000 50010 (2/405) "bitget" none
        none).breakeven_hours ≠
      ((calculate_breakeven 315 50000 50010 (2/405) "bitget" none
        none).breakeven_periods).map (fun p => p * 8) := by
  refine ⟨?_, ?_, ?_⟩ <;>
    norm_num [calculate_breakeven, entryCostRaw, exitCostRaw,
      totalCostRaw, fundingPerPeriodRaw, breakevenPeriodsRaw,
      breakevenSpotFee, breakevenPerpEntryFee, breakevenPerpExitFee,
      get_fees, pyRound, roundHalfEven, Option.map]

/-- Claim C9 (amended): the returned `breakeven_hours` equals the
unrounded breakeven periods multiplied by 8 and then rounded to two
decimals (it equals 8 × the returned `breakeven_periods` only up to
the two independent roundings). -/
theorem c9_breakeven_hours_from_raw_periods
    (size_usdt p1 p2 funding_rate : ℚ) (exchange : String)
    (spot_fee perp_fee : Option ℚ) :
    (calculate_breakeven size_usdt p1 p2 funding_rate exchange
        spot_fee perp_fee).breakeven_hours =
      (breakevenPeriodsRaw size_usdt funding_rate exchange spot_fee
        perp_fee).map (fun p => pyRound (p * 8) 2) := by
  simp [calculate_breakeven, Option.map_map]
  rfl

/-- Claim C8 (counterexample): the returned cost fields do not scale
exactly: at size 0.0015 on Bitget the rounded entry cost is 0.000002,
at size 3 × 0.0015 it is 0.000007 ≠ 3 × 0.000002. -/
theorem c8_counterexample_rounded_costs_not_homogeneous :
    (calculate_breakeven (3 * 0.0015) 50000 50010 0.0001 "bitget" none
        none).entry_cost_usdt ≠
      3 * (calculate_breakeven 0.0015 50000 50010 0.0001 "bitget" none
        none).entry_cost_usdt := by
  norm_num [calculate_breakeven, entryCostRaw, exitCostRaw,
    totalCostRaw, fundingPerPeriodRaw, breakevenPeriodsRaw,
    breakevenSpotFee, breakevenPerpEntryFee, breakevenPerpExitFee,
    get_fees, pyRound, roundHalfEven]

/-! ## Claims C1-C6: entry gate, exit path, reserve guard, store -/

/-- Claim C1: at the fully approving scenario, the entry gate passes
every check but the `Position(**kwargs)` construction raises
`TypeError` because the dataclass accepts no `tier` keyword, so no
position is saved (the spec and the test-suite expect a saved position
with `tier = "tier_1"`). -/
theorem c1_entry_construction_raises_type_error :
    evaluateEntry c1EntryInput = EntryOutcome.typeError ["tier"] := by
  norm_num [evaluateEntry, c1EntryInput, BLACKLIST,
    get_tier_for_symbol, TIERS, TIER_1, TIER_2, List.find?,
    SpotFundingArb.calculate, checkCapitalAvailable, estimatedBalance,
    CAPITAL_CONFIG, calculate_breakeven, entryCostRaw, exitCostRaw,
    totalCostRaw, fundingPerPeriodRaw, breakevenPeriodsRaw,
    breakevenSpotFee, breakevenPerpEntryFee, breakevenPerpExitFee,
    get_fees, pyRound, roundHalfEven, MAX_BREAKEVEN_PERIODS,
    PERIODS_PER_DAY, abs_of_nonneg]
  try simp
  try norm_num
  try simp [strategyOpenKwargs, positionInitParams, List.filter]
  try norm_num

/-- Claim C2: the exit path records the fill prices as exit prices,
sets the status to "closed" before computing `realized_pnl` with
`calculate_pnl`, so the persisted `realized_pnl` equals the closed-PnL
formula (exactly, hence within 1e-6), and the closed position is
deleted from its key and appended to `trade_history`. -/
theorem c2_exit_realized_pnl_matches_formula (position : Position)
    (spot_fill perp_fill : LegFill) (now : ℚ) :
    |(executeExitUpdate position spot_fill perp_fill now).realized_pnl
        - (((executeExitUpdate position spot_fill perp_fill now).spot_exit_price
            - (executeExitUpdate position spot_fill perp_fill now).spot_entry_price)
            * (executeExitUpdate position spot_fill perp_fill now).spot_quantity
          + ((executeExitUpdate position spot_fill perp_fill now).perp_entry_price
            - (executeExitUpdate position spot_fill perp_fill now).perp_exit_price)
            * (executeExitUpdate position spot_fill perp_fill now).perp_quantity
          + (executeExitUpdate position spot_fill perp_fill now).funding_collected)|
      ≤ 1 / 1000000 ∧
    save_position (executeExitUpdate position spot_fill perp_fill now) =
      SaveEffect.deleteAndAppend
        (executeExitUpdate position spot_fill perp_fill now).redis_key
        (executeExitUpdate position spot_fill perp_fill now) := by
  constructor
  · simp [executeExitUpdate, Position.calculate_pnl]
  · simp [executeExitUpdate, save_position]

/-- Freshness reduction for `_evaluate_exit`: with cached, non-stale
funding data the result is the branch chain's decision and the updated
counter. -/
lemma evaluateExit_of_fresh (inp : ExitInput) (entry : FundingRateEntry)
    (hf : inp.funding = some entry)
    (hfresh : ¬ inp.now - entry.timestamp > inp.funding_poll_interval * 2) :
    evaluateExit inp =
      { decision := exitFinal inp entry
        neg_count := exitNewCount inp entry } := by
  simp [evaluateExit, hf, hfresh]

/-- With a negative rate and a delta monitor the counter increments. -/
lemma exitNewCount_of_neg (inp : ExitInput) (entry : FundingRateEntry)
    (hneg : entry.funding_rate < 0) (hmon : inp.has_delta_monitor = true) :
    exitNewCount inp entry = inp.neg_count + 1 := by
  simp [exitNewCount, track_negative_funding, hneg, hmon]

/-- With a negative rate the funding-drop branch cannot fire. -/
lemma exitStateA_of_neg (inp : ExitInput) (entry : FundingRateEntry)
    (hneg : entry.funding_rate < 0) :
    exitStateA inp entry = none := by
  unfold exitStateA
  rw [if_neg]
  rintro ⟨h1, -⟩
  exact lt_asymm hneg h1

/-- When the funding-drop trigger does not fire (in particular when any
of its four conjuncts fails), branch (a) leaves no pending exit. -/
lemma exitStateA_of_no_drop (inp : ExitInput) (entry : FundingRateEntry)
    (hnota : ¬(entry.funding_rate > 0 ∧ inp.pos.entry_funding_rate > 0
      ∧ entry.funding_rate < inp.pos.entry_funding_rate * (70/100)
      ∧ inp.now - inp.pos.opened_at ≥ MIN_HOLD_SECONDS)) :
    exitStateA inp entry = none := by
  unfold exitStateA
  by_cases h1 : entry.funding_rate > 0 ∧ inp.pos.entry_funding_rate > 0
      ∧ entry.funding_rate < inp.pos.entry_funding_rate * (70/100)
  · rw [if_pos h1, if_neg (fun h2 => hnota ⟨h1.1, h1.2.1, h1.2.2, h2⟩)]
  · rw [if_neg h1]

/-- The stop-loss firing condition in terms of the position's tier and
cached order book. -/
lemma stopLossFires_eq_true_iff (inp : ExitInput) (tier : Tier)
    (spot_book : OrderBookEntry)
    (htier : get_tier_for_symbol inp.pos.symbol = some tier)
    (hbook : inp.spot_raw = some spot_book) :
    stopLossFires inp = true ↔
      (inp.pos.estimate_unrealized_pnl spot_book.mid_price
          spot_book.mid_price
          < -(tier.size_per_pair * tier.stop_loss_pct)
        ∧ inp.pos.funding_collected
          < |inp.pos.estimate_unrealized_pnl spot_book.mid_price
              spot_book.mid_price|) := by
  simp [stopLossFires, htier, hbook]

/-- Position for the C3 counterexample and witness: open for 10 hours,
no price drift, no funding collected. -/
def c3TickPos : Position :=
  { exchange := "bitget", symbol := "BTC/USDT"
    perp_symbol := "BTC/USDT:USDT", direction := "long_spot_short_perp"
    status := "open", size_usdt := 315
    spot_entry_price := 50000, spot_quantity := 0.0063
    perp_entry_price := 50010, perp_quantity := 0.0063
    entry_funding_rate := 0.0005, entry_annualized_rate := 54.75
    funding_collected := 0, last_funding_update := 0, opened_at := 0 }

/-- Exit-tick input for the C3 counterexample: the FIRST observation of
a negative funding rate (counter still 0), hold time 10 hours. -/
def c3TickInput : ExitInput :=
  { pos := c3TickPos
    funding := some
      { exchange := "bitget", symbol := "BTC/USDT:USDT"
        spot_symbol := "BTC/USDT", funding_rate := -0.0001
        funding_timestamp := 36000, timestamp := 36000 }
    spot_raw := some
      { exchange := "bitget", symbol := "BTC/USDT", bid := 50000
        ask := 50010, bid_volume := 1, ask_volume := 1
        timestamp := 36000 }
    now := 36000
    funding_poll_interval := 300
    min_exit_annualized_pct := 3
    has_delta_monitor := true
    neg_count := 0 }

/-- Claim C3 (counterexample): on the first observation of a negative
funding rate (counter goes 0 to 1) with hold time 10h ≥ MIN_HOLD, the
evaluation closes the position with `funding_negative` — branch (d)
fires on a single negative observation past the minimum hold — so the
claim's "never closes the position on that tick, regardless of hold
time" is false. -/
theorem c3_counterexample_first_negative_closes_past_min_hold :
    evaluateExit c3TickInput =
      { decision := some "funding_negative", neg_count := 1 } := by
  norm_num [evaluateExit, exitFinal, exitStateD, exitStateC, exitStateB,
    exitStateA, exitNewCount, track_negative_funding, stopLossFires,
    get_tier_for_symbol, TIERS, BLACKLIST, TIER_1, TIER_2, List.find?,
    Position.estimate_unrealized_pnl, OrderBookEntry.mid_price,
    MIN_HOLD_SECONDS, c3TickInput, c3TickPos, ExitDecision.mk.injEq]
  try simp
  try norm_num
  try simp
  try norm_num

/-- Claim C3 (amended): with fresh funding data, a negative current
rate and a delta monitor attached, the counter increments; when it
reaches 2 the position closes with `funding_negative` regardless of
hold time; on a first observation (counter 0) with the stop loss not
firing, the position is closed with `funding_negative` exactly when
hold time has reached MIN_HOLD, and is left open otherwise. -/
theorem c3_negative_funding_counter_and_close (inp : ExitInput)
    (entry : FundingRateEntry)
    (hf : inp.funding = some entry)
    (hfresh : ¬ inp.now - entry.timestamp > inp.funding_poll_interval * 2)
    (hneg : entry.funding_rate < 0)
    (hmon : inp.has_delta_monitor = true) :
    (evaluateExit inp).neg_count = inp.neg_count + 1 ∧
    (1 ≤ inp.neg_count →
      (evaluateExit inp).decision = some "funding_negative") ∧
    (inp.neg_count = 0 → stopLossFires inp = false →
      (evaluateExit inp).decision =
        if MIN_HOLD_SECONDS ≤ inp.now - inp.pos.opened_at
        then some "funding_negative" else none) := by
  rw [evaluateExit_of_fresh inp entry hf hfresh]
  refine ⟨?_, ?_, ?_⟩
  · simp [exitNewCount_of_neg inp entry hneg hmon]
  · intro hc
    have hb : exitStateB inp entry = some "funding_negative" := by
      unfold exitStateB
      rw [if_pos ⟨hneg, hmon, by
        rw [exitNewCount_of_neg inp entry hneg hmon]; omega⟩]
    have hcs : exitStateC inp entry = some "funding_negative" := by
      unfold exitStateC; rw [hb]; simp
    have hd : exitStateD inp entry = some "funding_negative" := by
      unfold exitStateD; rw [hcs]; simp
    show exitFinal inp entry = some "funding_negative"
    unfold exitFinal
    rw [hd]
    simp
  · intro h0 hstop
    have ha := exitStateA_of_neg inp entry hneg
    have hb : exitStateB inp entry = none := by
      unfold exitStateB
      rw [if_neg, ha]
      rintro ⟨-, -, h3⟩
      rw [exitNewCount_of_neg inp entry hneg hmon, h0] at h3
      omega
    have hcs : exitStateC inp entry = none := by
      unfold exitStateC; rw [hb]; simp [hstop]
    have hd : exitStateD inp entry =
        if MIN_HOLD_SECONDS ≤ inp.now - inp.pos.opened_at
        then some "funding_negative" else none := by
      unfold exitStateD; rw [hcs]; simp [hneg, ge_iff_le]
    show exitFinal inp entry = _
    unfold exitFinal
    rw [hd]
    by_cases hh : MIN_HOLD_SECONDS ≤ inp.now - inp.pos.opened_at
    · rw [if_pos hh]; simp
    · rw [if_neg hh]

/-- Funding entry for the C3 witness: the SECOND consecutive negative
observation, one hour after open (below MIN_HOLD). -/
def c3WitnessEntry : FundingRateEntry :=
  { exchange := "bitget", symbol := "BTC/USDT:USDT"
    spot_symbol := "BTC/USDT", funding_rate := -0.0001
    funding_timestamp := 3600, timestamp := 3600 }

/-- Exit-tick input for the C3 witness: counter already at 1, hold
time one hour. -/
def c3SecondNegativeInput : ExitInput :=
  { pos := c3TickPos
    funding := some c3WitnessEntry
    spot_raw := some
      { exchange := "bitget", symbol := "BTC/USDT", bid := 50000
        ask := 50010, bid_volume := 1, ask_volume := 1
        timestamp := 3600 }
    now := 3600
    funding_poll_interval := 300
    min_exit_annualized_pct := 3
    has_delta_monitor := true
    neg_count := 1 }

/-- Witness for the amended C3 theorem at the second consecutive
negative observation, one hour after open. -/
theorem c3_negative_funding_witness :
    (evaluateExit c3SecondNegativeInput).neg_count =
      c3SecondNegativeInput.neg_count + 1 ∧
    (1 ≤ c3SecondNegativeInput.neg_count →
      (evaluateExit c3SecondNegativeInput).decision =
        some "funding_negative") ∧
    (c3SecondNegativeInput.neg_count = 0 →
      stopLossFires c3SecondNegativeInput = false →
      (evaluateExit c3SecondNegativeInput).decision =
        if MIN_HOLD_SECONDS ≤ c3SecondNegativeInput.now
            - c3SecondNegativeInput.pos.opened_at
        then some "funding_negative" else none) :=
  c3_negative_funding_counter_and_close c3SecondNegativeInput
    c3WitnessEntry rfl
    (by norm_num [c3SecondNegativeInput, c3WitnessEntry])
    (by norm_num [c3WitnessEntry]) rfl

/-- Closed position carrying the spec scenario's realized loss of
-250 (so the estimated balance is 2000 - 250 = 1750 < 1800). -/
def c4ClosedLoss : Position :=
  { exchange := "bitget", symbol := "WLD/USDT"
    perp_symbol := "WLD/USDT:USDT", direction := "long_spot_short_perp"
    status := "closed", size_usdt := 180, opened_at := 100
    closed_at := 200, realized_pnl := -250 }

/-- An open position present on the exit tick of the C4 scenario. -/
def c4OpenPosition : Position :=
  { exchange := "bitget", symbol := "BTC/USDT"
    perp_symbol := "BTC/USDT:USDT", direction := "long_spot_short_perp"
    status := "open", size_usdt := 315, opened_at := 100 }

/-- Claim C4: in the reserve-protection scenario (history summing to
-250, estimated balance 1750 < 1800 operative, one open position) the
tier cascade never runs: filtering the open positions on `p.tier`
raises `AttributeError` (the `Position` dataclass has no `tier`
field), so nothing is closed, against the claimed tier_2-then-tier_1
forced closes. -/
theorem c4_reserve_protection_raises_attribute_error :
    estimatedBalance [c4ClosedLoss] = 1750 ∧
    checkReserveProtection [c4OpenPosition] [c4ClosedLoss] =
      ReserveOutcome.exception
        "AttributeError: Position object has no attribute tier" := by
  constructor
  · norm_num [estimatedBalance, CAPITAL_CONFIG, c4ClosedLoss]
  · simp [checkReserveProtection, estimatedBalance, CAPITAL_CONFIG,
      c4ClosedLoss, c4OpenPosition]
    norm_num

/-- Claim C5: assuming fresh funding data, that neither the
funding-drop trigger (a) nor the funding-negative trigger (b) fires,
and that the position's symbol has a tier and an order book is cached,
the evaluation closes with `stop_loss` — regardless of hold time —
exactly when the unrealized PnL at mid price is strictly below
`-(size_per_pair * stop_loss_pct)` and `funding_collected` is strictly
below `|unrealized|`; at the exact boundary the strict comparisons
fail and the stop loss does not fire. -/
theorem c5_stop_loss_fires_iff (inp : ExitInput)
    (entry : FundingRateEntry) (tier : Tier)
    (spot_book : OrderBookEntry)
    (hf : inp.funding = some entry)
    (hfresh : ¬ inp.now - entry.timestamp > inp.funding_poll_interval * 2)
    (htier : get_tier_for_symbol inp.pos.symbol = some tier)
    (hbook : inp.spot_raw = some spot_book)
    (hnota : ¬(entry.funding_rate > 0 ∧ inp.pos.entry_funding_rate > 0
      ∧ entry.funding_rate < inp.pos.entry_funding_rate * (70/100)
      ∧ inp.now - inp.pos.opened_at ≥ MIN_HOLD_SECONDS))
    (hnotb : ¬(entry.funding_rate < 0 ∧ inp.has_delta_monitor = true
      ∧ 2 ≤ inp.neg_count + 1)) :
    ((evaluateExit inp).decision = some "stop_loss" ↔
      (inp.pos.estimate_unrealized_pnl spot_book.mid_price
          spot_book.mid_price
          < -(tier.size_per_pair * tier.stop_loss_pct)
        ∧ inp.pos.funding_collected
          < |inp.pos.estimate_unrealized_pnl spot_book.mid_price
              spot_book.mid_price|)) := by
  rw [evaluateExit_of_fresh inp entry hf hfresh]
  have ha := exitStateA_of_no_drop inp entry hnota
  have hb : exitStateB inp entry = none := by
    unfold exitStateB
    rw [if_neg, ha]
    rintro ⟨h1, h2, h3⟩
    rw [exitNewCount_of_neg inp entry h1 h2] at h3
    exact hnotb ⟨h1, h2, h3⟩
  by_cases hcond : (inp.pos.estimate_unrealized_pnl spot_book.mid_price
      spot_book.mid_price
      < -(tier.size_per_pair * tier.stop_loss_pct)
    ∧ inp.pos.funding_collected
      < |inp.pos.estimate_unrealized_pnl spot_book.mid_price
          spot_book.mid_price|)
  · have hsf : stopLossFires inp = true :=
      (stopLossFires_eq_true_iff inp tier spot_book htier hbook).mpr hcond
    have hcs : exitStateC inp entry = some "stop_loss" := by
      unfold exitStateC; rw [hb]; simp [hsf]
    have hd : exitStateD inp entry = some "stop_loss" := by
      unfold exitStateD; rw [hcs]; simp
    have hfin : exitFinal inp entry = some "stop_loss" := by
      unfold exitFinal; rw [hd]; simp
    simpa [hfin] using hcond
  · have hsf : stopLossFires inp = false := by
      cases hh : stopLossFires inp
      · rfl
      · exact absurd
          ((stopLossFires_eq_true_iff inp tier spot_book htier
            hbook).mp hh) hcond
    have hcs : exitStateC inp entry = none := by
      unfold exitStateC; rw [hb]; simp [hsf]
    have hdne : exitStateD inp entry ≠ some "stop_loss" := by
      unfold exitStateD
      rw [hcs]
      split_ifs <;> simp
    have hfne : exitFinal inp entry ≠ some "stop_loss" := by
      unfold exitFinal
      rcases hdv : exitStateD inp entry with _ | reason
      · simp
      · have hr : reason ≠ "stop_loss" := by
          intro e
          rw [e] at hdv
          exact hdne hdv
        show (if reason ≠ "stop_loss" ∧ reason ≠ "funding_negative"
            ∧ reason ≠ "reserve_protection"
            ∧ inp.now - inp.pos.opened_at < MIN_HOLD_SECONDS then
          none else some reason) ≠ some "stop_loss"
        split_ifs <;> simp [hr]
    exact iff_of_false hfne hcond

/-- Position for the C5 witness: slightly imbalanced legs so that the
unrealized PnL at mid price 80000 is -2.936, below the tier_1 stop
limit of -1.575, with no funding collected. -/
def c5Position : Position :=
  { exchange := "bitget", symbol := "BTC/USDT"
    perp_symbol := "BTC/USDT:USDT", direction := "long_spot_short_perp"
    status := "open", size_usdt := 315
    spot_entry_price := 50000, spot_quantity := 0.0063
    perp_entry_price := 50010, perp_quantity := 0.0064
    entry_funding_rate := 0.0005, entry_annualized_rate := 54.75
    funding_collected := 0, last_funding_update := 0, opened_at := 0 }

/-- Funding entry for the C5 witness: positive rate at 80% of the
entry rate, so the funding-drop trigger cannot fire. -/
def c5Entry : FundingRateEntry :=
  { exchange := "bitget", symbol := "BTC/USDT:USDT"
    spot_symbol := "BTC/USDT", funding_rate := 0.0004
    funding_timestamp := 3600, timestamp := 3600 }

/-- Order book for the C5 witness (mid price 80000). -/
def c5Book : OrderBookEntry :=
  { exchange := "bitget", symbol := "BTC/USDT", bid := 79990
    ask := 80010, bid_volume := 1, ask_volume := 1, timestamp := 3600 }

/-- Exit-tick input for the C5 witness: one hour after open (below
MIN_HOLD), no negative-funding history. -/
def c5StopLossInput : ExitInput :=
  { pos := c5Position
    funding := some c5Entry
    spot_raw := some c5Book
    now := 3600
    funding_poll_interval := 300
    min_exit_annualized_pct := 3
    has_delta_monitor := true
    neg_count := 0 }

/-- Witness for the C5 theorem at a concrete losing position one hour
after open. -/
theorem c5_stop_loss_witness :
    ((evaluateExit c5StopLossInput).decision = some "stop_loss" ↔
      (c5StopLossInput.pos.estimate_unrealized_pnl c5Book.mid_price
          c5Book.mid_price
          < -(TIER_1.size_per_pair * TIER_1.stop_loss_pct)
        ∧ c5StopLossInput.pos.funding_collected
          < |c5StopLossInput.pos.estimate_unrealized_pnl
              c5Book.mid_price c5Book.mid_price|)) :=
  c5_stop_loss_fires_iff c5StopLossInput c5Entry TIER_1 c5Book rfl
    (by norm_num [c5StopLossInput, c5Entry])
    (by simp [c5StopLossInput, c5Position, get_tier_for_symbol, TIERS,
      BLACKLIST, TIER_1, TIER_2, List.find?])
    rfl
    (by norm_num [c5StopLossInput, c5Position, c5Entry,
      MIN_HOLD_SECONDS])
    (by norm_num [c5StopLossInput, c5Entry])

/-- Claim C6: `save_position` routes on the exact status string: a
position whose status is "closed" has its key deleted and is appended
to `trade_history`; any other status — "open", "stale_closed", … — is
written back under its key with a 7-day TTL (604800 seconds) and is
not appended. -/
theorem c6_save_position_routes_on_status (position : Position) :
    (position.status = "closed" →
      save_position position =
        SaveEffect.deleteAndAppend position.redis_key position) ∧
    (position.status ≠ "closed" →
      save_position position =
        SaveEffect.writeWithTTL position.redis_key position 604800) := by
  constructor
  · intro h; simp [save_position, h]
  · intro h; simp [save_position, h]

/-- A position with the status reconciliation assigns. -/
def c6StalePosition : Position :=
  { exchange := "bitget", symbol := "BTC/USDT"
    perp_symbol := "BTC/USDT:USDT", direction := "long_spot_short_perp"
    status := "stale_closed", size_usdt := 315, opened_at := 100
    closed_at := 200 }

/-- Witness for C6 at a concrete position with status "stale_closed":
it is written back with the 7-day TTL, not appended to history. -/
theorem c6_save_position_witness :
    save_position c6StalePosition =
      SaveEffect.writeWithTTL c6StalePosition.redis_key
        c6StalePosition 604800 :=
  (c6_save_position_routes_on_status c6StalePosition).2 (by
    simp [c6StalePosition])

/-! ## Claim C8: homogeneity of the breakeven calculator -/

/-- The unrounded entry cost is linear in the size. -/
lemma entryCostRaw_mul (k s : ℚ) (ex : String) (sf pf : Option ℚ) :
    entryCostRaw (k * s) ex sf pf = k * entryCostRaw s ex sf pf := by
  unfold entryCostRaw; ring

/-- The unrounded exit cost is linear in the size. -/
lemma exitCostRaw_mul (k s : ℚ) (ex : String) (sf pf : Option ℚ) :
    exitCostRaw (k * s) ex sf pf = k * exitCostRaw s ex sf pf := by
  unfold exitCostRaw; ring

/-- The unrounded funding per period is linear in the size. -/
lemma fundingPerPeriodRaw_mul (k s r : ℚ) :
    fundingPerPeriodRaw (k * s) r = k * fundingPerPeriodRaw s r := by
  unfold fundingPerPeriodRaw; ring

/-- The unrounded total cost is linear in the size. -/
lemma totalCostRaw_mul (k s : ℚ) (ex : String) (sf pf : Option ℚ) :
    totalCostRaw (k * s) ex sf pf = k * totalCostRaw s ex sf pf := by
  unfold totalCostRaw; rw [entryCostRaw_mul, exitCostRaw_mul]; ring

/-- The unrounded breakeven periods are invariant under scaling the
size by a positive factor (the factor cancels between cost and
funding). -/
lemma breakevenPeriodsRaw_mul (k s r : ℚ) (ex : String)
    (sf pf : Option ℚ) (hk : 0 < k) :
    breakevenPeriodsRaw (k * s) r ex sf pf =
      breakevenPeriodsRaw s r ex sf pf := by
  unfold breakevenPeriodsRaw
  rw [fundingPerPeriodRaw_mul, totalCostRaw_mul]
  by_cases h : 0 < fundingPerPeriodRaw s r
  · rw [if_pos (mul_pos hk h), if_pos h,
      mul_div_mul_left _ _ (ne_of_gt hk)]
  · rw [if_neg ?hn, if_neg h]
    case hn =>
      intro hc
      exact h ((mul_pos_iff_of_pos_left hk).mp hc)

/-- Claim C8 (amended): scaling `size_usdt` by k > 0 leaves the
returned `breakeven_periods`, `breakeven_hours` and `viable` exactly
unchanged, and the returned cost and funding fields equal k times the
unrounded values, rounded to 6 decimals afterwards (so they are k
times the returned fields only up to that rounding; determinism is
immediate, `calculate_breakeven` being a pure function of its
arguments). -/
theorem c8_breakeven_scaling_up_to_rounding
    (size_usdt p1 p2 funding_rate : ℚ) (exchange : String)
    (spot_fee perp_fee : Option ℚ) (k : ℚ) (hk : 0 < k) :
    (calculate_breakeven (k * size_usdt) p1 p2 funding_rate exchange
        spot_fee perp_fee).breakeven_periods =
      (calculate_breakeven size_usdt p1 p2 funding_rate exchange
        spot_fee perp_fee).breakeven_periods ∧
    (calculate_breakeven (k * size_usdt) p1 p2 funding_rate exchange
        spot_fee perp_fee).breakeven_hours =
      (calculate_breakeven size_usdt p1 p2 funding_rate exchange
        spot_fee perp_fee).breakeven_hours ∧
    (calculate_breakeven (k * size_usdt) p1 p2 funding_rate exchange
        spot_fee perp_fee).viable =
      (calculate_breakeven size_usdt p1 p2 funding_rate exchange
        spot_fee perp_fee).viable ∧
    (calculate_breakeven (k * size_usdt) p1 p2 funding_rate exchange
        spot_fee perp_fee).entry_cost_usdt =
      pyRound (k * entryCostRaw size_usdt exchange spot_fee perp_fee)
        6 ∧
    (calculate_breakeven (k * size_usdt) p1 p2 funding_rate exchange
        spot_fee perp_fee).exit_cost_usdt =
      pyRound (k * exitCostRaw size_usdt exchange spot_fee perp_fee)
        6 ∧
    (calculate_breakeven (k * size_usdt) p1 p2 funding_rate exchange
        spot_fee perp_fee).total_cost_usdt =
      pyRound (k * totalCostRaw size_usdt exchange spot_fee perp_fee)
        6 ∧
    (calculate_breakeven (k * size_usdt) p1 p2 funding_rate exchange
        spot_fee perp_fee).funding_per_period =
      pyRound (k * fundingPerPeriodRaw size_usdt funding_rate) 6 := by
  refine ⟨?_, ?_, ?_, ?_, ?_, ?_, ?_⟩ <;>
    simp [calculate_breakeven, entryCostRaw_mul, exitCostRaw_mul,
      fundingPerPeriodRaw_mul, totalCostRaw_mul,
      breakevenPeriodsRaw_mul k size_usdt funding_rate exchange
        spot_fee perp_fee hk, totalCostRaw, mul_add]

/-- Witness for C8 at k = 2 on the Bitget tier-1 configuration. -/
theorem c8_breakeven_scaling_witness :
    0 < (2 : ℚ) ∧
    ((calculate_breakeven (2 * 315) 50000 50010 0.0001 "bitget" none
        none).breakeven_periods =
      (calculate_breakeven 315 50000 50010 0.0001 "bitget" none
        none).breakeven_periods ∧
    (calculate_breakeven (2 * 315) 50000 50010 0.0001 "bitget" none
        none).breakeven_hours =
      (calculate_breakeven 315 50000 50010 0.0001 "bitget" none
        none).breakeven_hours ∧
    (calculate_breakeven (2 * 315) 50000 50010 0.0001 "bitget" none
        none).viable =
      (calculate_breakeven 315 50000 50010 0.0001 "bitget" none
        none).viable ∧
    (calculate_breakeven (2 * 315) 50000 50010 0.0001 "bitget" none
        none).entry_cost_usdt =
      pyRound (2 * entryCostRaw 315 "bitget" none none) 6 ∧
    (calculate_breakeven (2 * 315) 50000 50010 0.0001 "bitget" none
        none).exit_cost_usdt =
      pyRound (2 * exitCostRaw 315 "bitget" none none) 6 ∧
    (calculate_breakeven (2 * 315) 50000 50010 0.0001 "bitget" none
        none).total_cost_usdt =
      pyRound (2 * totalCostRaw 315 "bitget" none none) 6 ∧
    (calculate_breakeven (2 * 315) 50000 50010 0.0001 "bitget" none
        none).funding_per_period =
      pyRound (2 * fundingPerPeriodRaw 315 0.0001) 6) :=
  ⟨by norm_num,
    c8_breakeven_scaling_up_to_rounding 315 50000 50010 0.0001
      "bitget" none none 2 (by norm_num)⟩
